import Mathlib

/-!
# GCodePathConfig and GCodeExport::preSetup (src/gcodeExport.h)

A shallow embedding of the class `GCodePathConfig` and of the inline method
`GCodeExport::preSetup`, with the properties of the specification stated over it.

Numbers.  The class is embedded twice.

* In exact arithmetic: a C++ `double` is an exact number of a linearly ordered field `K`
  (the rationals and the reals are instances), an `int` is an `Int`.  The two `double`
  members that receive a quotient whose divisor is a run-time value (`speed` in
  `smoothSpeed`, `extrusion_per_mm` in `calculateExtrusion`) have type `Option K`: `none`
  stands for the quotient by zero, which is not a number.  The constant `M_PI` of
  `<math.h>` is a parameter of every function that reaches `calculateExtrusion`.  The
  statements that are made "in exact real arithmetic" are about this embedding.
* In IEEE 754 double precision (namespace `ieee`): the same lines of code over a model of
  binary64 with rounding to nearest, infinities and NaN.  Where rounding makes the compiled
  code differ from the exact statement, the code is evaluated in this embedding.
-/

namespace cura

variable {K : Type} [LinearOrderedField K]

/-! ## Arithmetic helpers -/

/-- Modelled from the spec: the conversion `INT2MM` of `utils/intpoint.h` (a file that is
not part of the sources at hand), micrometres to millimetres, `INT2MM(n) = n / 1000`. -/
def INT2MM (n : Int) : K := (n : K) / 1000

/-- Division of two `double`s in exact arithmetic: the quotient, and `none` when the
divisor is zero. -/
def fdiv (a b : K) : Option K := if b = 0 then none else some (a / b)

/-- Sum of two possibly undefined numbers (undefined as soon as one of them is). -/
def fadd (a b : Option K) : Option K :=
  match a, b with
  | some x, some y => some (x + y)
  | _, _ => none

/-! ## class GCodePathConfig -/

/-- The members of `GCodePathConfig`, private ones first, in the order of the source.
`name` is a C string pointer and `retraction_config` a pointer; `none` is `nullptr`. -/
structure GCodePathConfig (K : Type) where
  speed : Option K
  line_width : Int
  filament_diameter : Int
  flow : K
  layer_thickness : Int
  extrusion_volume_per_mm : K
  extrusion_per_mm : Option K
  name : Option String
  spiralize : Bool
  retraction_config : Option Nat

namespace GCodePathConfig

/-- The default constructor `GCodePathConfig()`.  Its initialiser list does not mention
`filament_diameter`, `flow` and `layer_thickness`; the indeterminate values these members
start with are the three arguments. -/
def ctor (filament_diameter : Int) (flow : K) (layer_thickness : Int) : GCodePathConfig K :=
  { speed := some 0
    line_width := 0
    filament_diameter := filament_diameter
    flow := flow
    layer_thickness := layer_thickness
    extrusion_volume_per_mm := 0
    extrusion_per_mm := some 0
    name := none
    spiralize := false
    retraction_config := none }

/-- The constructor `GCodePathConfig(RetractionConfig* retraction_config, const char* name)`,
with the same three indeterminate members as `ctor`. -/
def ctorNamed (retraction_config : Option Nat) (name : Option String)
    (filament_diameter : Int) (flow : K) (layer_thickness : Int) : GCodePathConfig K :=
  { speed := some 0
    line_width := 0
    filament_diameter := filament_diameter
    flow := flow
    layer_thickness := layer_thickness
    extrusion_volume_per_mm := 0
    extrusion_per_mm := some 0
    name := name
    spiralize := false
    retraction_config := retraction_config }

/-- The local variable `filament_area` of `calculateExtrusion`:
`M_PI * (INT2MM(filament_diameter) / 2.0) * (INT2MM(filament_diameter) / 2.0)`. -/
def filament_area (M_PI : K) (c : GCodePathConfig K) : K :=
  M_PI * (INT2MM c.filament_diameter / 2) * (INT2MM c.filament_diameter / 2)

/-- The private method `calculateExtrusion`. -/
def calculateExtrusion (M_PI : K) (c : GCodePathConfig K) : GCodePathConfig K :=
  let volume : K := INT2MM c.line_width * INT2MM c.layer_thickness * c.flow / 100
  { c with
    extrusion_volume_per_mm := volume
    extrusion_per_mm := fdiv volume (filament_area M_PI c) }

/-- The method `setSpeed(double speed)`. -/
def setSpeed (speed : K) (c : GCodePathConfig K) : GCodePathConfig K :=
  { c with speed := some speed }

/-- The method `setLineWidth(int line_width)`. -/
def setLineWidth (M_PI : K) (line_width : Int) (c : GCodePathConfig K) : GCodePathConfig K :=
  calculateExtrusion M_PI { c with line_width := line_width }

/-- The method `setLayerHeight(int layer_height)`. -/
def setLayerHeight (M_PI : K) (layer_height : Int) (c : GCodePathConfig K) :
    GCodePathConfig K :=
  calculateExtrusion M_PI { c with layer_thickness := layer_height }

/-- The method `setFilamentDiameter(int diameter)`. -/
def setFilamentDiameter (M_PI : K) (diameter : Int) (c : GCodePathConfig K) :
    GCodePathConfig K :=
  calculateExtrusion M_PI { c with filament_diameter := diameter }

/-- The method `setFlow(double flow)`. -/
def setFlow (M_PI : K) (flow : K) (c : GCodePathConfig K) : GCodePathConfig K :=
  calculateExtrusion M_PI { c with flow := flow }

/-- The method `smoothSpeed(double min_speed, int layer_nr, double max_speed_layer)`:
`speed = (speed*layer_nr)/max_speed_layer
       + (min_speed*(max_speed_layer-layer_nr)/max_speed_layer)`. -/
def smoothSpeed (min_speed : K) (layer_nr : Int) (max_speed_layer : K)
    (c : GCodePathConfig K) : GCodePathConfig K :=
  { c with
    speed :=
      fadd (c.speed.bind fun s => fdiv (s * (layer_nr : K)) max_speed_layer)
        (fdiv (min_speed * (max_speed_layer - (layer_nr : K))) max_speed_layer) }

/-- The method `getExtrusionPerMM(bool volumatric)`; it is not `const`, so the state after
the call is returned next to the result. -/
def getExtrusionPerMM (volumatric : Bool) (c : GCodePathConfig K) :
    Option K × GCodePathConfig K :=
  if volumatric then (some c.extrusion_volume_per_mm, c) else (c.extrusion_per_mm, c)

/-- The method `getSpeed()`, result and state after the call. -/
def getSpeed (c : GCodePathConfig K) : Option K × GCodePathConfig K := (c.speed, c)

/-- The method `getLineWidth()`, result and state after the call. -/
def getLineWidth (c : GCodePathConfig K) : Int × GCodePathConfig K := (c.line_width, c)

end GCodePathConfig

open GCodePathConfig

/-! ## Sequences of public operations -/

/-- The six public operations of `GCodePathConfig` that write a member. -/
inductive Op (K : Type) where
  | setSpeed (speed : K)
  | setLineWidth (line_width : Int)
  | setLayerHeight (layer_height : Int)
  | setFilamentDiameter (diameter : Int)
  | setFlow (flow : K)
  | smoothSpeed (min_speed : K) (layer_nr : Int) (max_speed_layer : K)

/-- One call of a public operation. -/
def Op.apply (M_PI : K) : Op K → GCodePathConfig K → GCodePathConfig K
  | Op.setSpeed v, c => GCodePathConfig.setSpeed v c
  | Op.setLineWidth v, c => GCodePathConfig.setLineWidth M_PI v c
  | Op.setLayerHeight v, c => GCodePathConfig.setLayerHeight M_PI v c
  | Op.setFilamentDiameter v, c => GCodePathConfig.setFilamentDiameter M_PI v c
  | Op.setFlow v, c => GCodePathConfig.setFlow M_PI v c
  | Op.smoothSpeed m l L, c => GCodePathConfig.smoothSpeed m l L c

/-- Whether the operation is one of the four parameter setters, the callers of
`calculateExtrusion`. -/
def Op.callsCalculateExtrusion : Op K → Bool
  | Op.setSpeed _ => false
  | Op.smoothSpeed _ _ _ => false
  | _ => true

/-- The calls of a list of operations, first element first. -/
def runOps (M_PI : K) : List (Op K) → GCodePathConfig K → GCodePathConfig K
  | [], c => c
  | o :: os, c => runOps M_PI os (o.apply M_PI c)

/-- The stored volume per millimetre is the one given by the stored parameters. -/
def VolumeConsistent (c : GCodePathConfig K) : Prop :=
  c.extrusion_volume_per_mm
    = ((c.line_width : K) / 1000) * ((c.layer_thickness : K) / 1000) * c.flow / 100

/-- The stored filament length per millimetre is the stored volume divided by the filament
area given by the stored diameter (both undefined when that area is zero). -/
def LengthConsistent (M_PI : K) (c : GCodePathConfig K) : Prop :=
  c.extrusion_per_mm
    = fdiv c.extrusion_volume_per_mm (M_PI * ((c.filament_diameter : K) / 2000) ^ 2)

/-- The consistency invariant: both derived members agree with the stored parameters. -/
def Consistent (M_PI : K) (c : GCodePathConfig K) : Prop :=
  VolumeConsistent c ∧ LengthConsistent M_PI c

instance (c : GCodePathConfig K) : Decidable (VolumeConsistent c) := by
  unfold VolumeConsistent
  infer_instance

instance (M_PI : K) (c : GCodePathConfig K) : Decidable (LengthConsistent M_PI c) := by
  unfold LengthConsistent
  infer_instance

instance (M_PI : K) (c : GCodePathConfig K) : Decidable (Consistent M_PI c) := by
  unfold Consistent
  infer_instance

/-- The state after `smoothSpeed(min_speed, j, max_speed_layer)` has been called once per
layer for the layers `j = 0, 1, ..., k`, in this order, with no other call in between. -/
def smoothSpeedUpTo (min_speed max_speed_layer : K) : Nat → GCodePathConfig K → GCodePathConfig K
  | 0, c => smoothSpeed min_speed 0 max_speed_layer c
  | k + 1, c =>
    smoothSpeed min_speed ((k + 1 : Nat) : Int) max_speed_layer
      (smoothSpeedUpTo min_speed max_speed_layer k c)

/-- The state after the layers `j = 0, 1, ..., k` when the caller sets the nominal speed
again with `setSpeed(nominal)` before each call of `smoothSpeed`. -/
def setAndSmoothUpTo (nominal min_speed max_speed_layer : K) :
    Nat → GCodePathConfig K → GCodePathConfig K
  | 0, c => smoothSpeed min_speed 0 max_speed_layer (setSpeed nominal c)
  | k + 1, c =>
    smoothSpeed min_speed ((k + 1 : Nat) : Int) max_speed_layer
      (setSpeed nominal (setAndSmoothUpTo nominal min_speed max_speed_layer k c))

/-! ## GCodeExport::preSetup -/

/-- The type `Point` of `utils/intpoint.h`, a pair of integer coordinates. -/
structure Point where
  X : Int
  Y : Int
deriving DecidableEq

/-- The four accessors of `SettingsBase` (declared in `settings.h`) that `preSetup` calls,
as functions of the settings key.  `F` is the enumeration `EGCodeFlavor`. -/
structure SettingsBase (K F : Type) where
  getSettingInMicrons : String → Int
  getSettingInMillimetersPerSecond : String → K
  getSettingString : String → String
  getSettingAsGCodeFlavor : String → F

/-- A call of one of the four configuration setters of `GCodeExport` that `preSetup`
invokes, with its arguments. -/
inductive Call (K F : Type) where
  | setExtruderOffset (id : Nat) (p : Point)
  | setSwitchExtruderCode (id : Nat) (preSwitchExtruderCode postSwitchExtruderCode : String)
  | setFlavor (flavor : F)
  | setRetractionSettings (extruderSwitchRetraction : Int)
      (extruderSwitchRetractionSpeed extruderSwitchPrimeSpeed : K)
      (minimalExtrusionBeforeRetraction retraction_count_max : Int)
deriving DecidableEq

/-- Whether the call is `setExtruderOffset(n, _)`. -/
def Call.isSetExtruderOffset {K F : Type} (n : Nat) : Call K F → Bool
  | Call.setExtruderOffset id _ => decide (id = n)
  | _ => false

/-- Whether the call is `setSwitchExtruderCode(n, _, _)`. -/
def Call.isSetSwitchExtruderCode {K F : Type} (n : Nat) : Call K F → Bool
  | Call.setSwitchExtruderCode id _ _ => decide (id = n)
  | _ => false

/-- Whether the call is a `setFlavor`. -/
def Call.isSetFlavor {K F : Type} : Call K F → Bool
  | Call.setFlavor _ => true
  | _ => false

/-- Whether the call is a `setRetractionSettings`. -/
def Call.isSetRetractionSettings {K F : Type} : Call K F → Bool
  | Call.setRetractionSettings _ _ _ _ _ => true
  | _ => false

/-- The loop `for (unsigned int n = start; n < stop; n++) body(n)`: the effects of the
iterations `n = start, start + 1, ..., stop - 1`, in this order (none when
`stop ≤ start`). -/
def forLoop {α : Type} (start stop : Nat) (body : Nat → α) : List α :=
  (List.range (stop - start)).map fun i => body (start + i)

/-- The call `setExtruderOffset(n, Point(...))` of the first loop of `preSetup`. -/
def extruderOffsetCall {K F : Type} (settings : SettingsBase K F) (n : Nat) : Call K F :=
  Call.setExtruderOffset n
    { X := settings.getSettingInMicrons ("machine_nozzle_offset_x_" ++ toString n)
      Y := settings.getSettingInMicrons ("machine_nozzle_offset_y_" ++ toString n) }

/-- The call `setSwitchExtruderCode(n, ...)` of the second loop of `preSetup`. -/
def switchExtruderCodeCall {K F : Type} (settings : SettingsBase K F) (n : Nat) : Call K F :=
  Call.setSwitchExtruderCode n
    (settings.getSettingString ("machine_pre_extruder_switch_code" ++ ("_" ++ toString n)))
    (settings.getSettingString ("machine_post_extruder_switch_code" ++ ("_" ++ toString n)))

/-- The call of `setFlavor` at the end of `preSetup`. -/
def flavorCall {K F : Type} (settings : SettingsBase K F) : Call K F :=
  Call.setFlavor (settings.getSettingAsGCodeFlavor "machine_gcode_flavor")

/-- The call of `setRetractionSettings` at the end of `preSetup`. -/
def retractionSettingsCall {K F : Type} (settings : SettingsBase K F) : Call K F :=
  Call.setRetractionSettings
    (settings.getSettingInMicrons "machine_switch_extruder_retraction_amount")
    (settings.getSettingInMillimetersPerSecond "material_switch_extruder_retraction_speed")
    (settings.getSettingInMillimetersPerSecond "material_switch_extruder_prime_speed")
    (settings.getSettingInMicrons "retraction_extrusion_window")
    (settings.getSettingInMicrons "retraction_count_max")

/-- The method `GCodeExport::preSetup(SettingsBase& settings)`, as the sequence of the
setter calls it makes.  The constant `MAX_EXTRUDERS` of `settings.h` is a parameter. -/
def preSetup {K F : Type} (MAX_EXTRUDERS : Nat) (settings : SettingsBase K F) :
    List (Call K F) :=
  forLoop 1 MAX_EXTRUDERS (extruderOffsetCall settings)
    ++ forLoop 0 MAX_EXTRUDERS (switchExtruderCodeCall settings)
    ++ [flavorCall settings, retractionSettingsCall settings]

/-- Settings in which every numeric value is 0, every text is empty and the flavor is 0. -/
def zeroSettings : SettingsBase ℚ Nat :=
  { getSettingInMicrons := fun _ => 0
    getSettingInMillimetersPerSecond := fun _ => 0
    getSettingString := fun _ => ""
    getSettingAsGCodeFlavor := fun _ => 0 }

/-! ## The same class in IEEE 754 double precision

The embedding above computes in an exact field, which is what a statement "in exact
real arithmetic" is about.  The compiled code computes in binary64 with rounding to
nearest, ties to even.  The definitions of this section embed the arithmetic lines of
`GCodePathConfig` over a model of binary64, so that the code can be evaluated bit for bit
at a concrete input.
-/

namespace ieee

/-- A binary64 value: `finite neg m e` is `(-1)^neg * m * 2^e` with `m < 2^53` and
`-1074 ≤ e ≤ 971` (and `e = -1074` or `2^52 ≤ m`, the zeros being `finite _ 0 (-1074)`),
`inf neg` is an infinity, `nan` stands for every NaN. -/
inductive Double where
  | finite (neg : Bool) (m : Nat) (e : Int)
  | inf (neg : Bool)
  | nan
deriving DecidableEq

namespace Double

/-- Auxiliary function of `log2`, by recursion on a bound of the number of halvings. -/
def log2Aux : Nat → Nat → Nat
  | 0, _ => 0
  | fuel + 1, n => if n < 2 then 0 else log2Aux fuel (n / 2) + 1

/-- The position of the leading bit: `log2 n = k` when `2^k ≤ n < 2^(k+1)`. -/
def log2 (n : Nat) : Nat := log2Aux n n

/-- Rounding of the rational `(-1)^neg * num / den` (with `den > 0`) to binary64, to
nearest with ties to even, overflowing to an infinity and underflowing gradually. -/
def roundRat (neg : Bool) (num den : Nat) : Double :=
  if num = 0 then finite neg 0 (-1074) else
  let e0 : Int := (log2 num : Int) - (log2 den : Int) - 52
  let q0 : Nat := if 0 ≤ e0 then num / (den * 2 ^ e0.toNat) else num * 2 ^ (-e0).toNat / den
  let e1 : Int := if q0 < 2 ^ 52 then e0 - 1 else e0
  let e : Int := max e1 (-1074)
  let n : Nat := if 0 ≤ e then num else num * 2 ^ (-e).toNat
  let d : Nat := if 0 ≤ e then den * 2 ^ e.toNat else den
  let q : Nat := n / d
  let r : Nat := n % d
  let m : Nat := if d < 2 * r ∨ (2 * r = d ∧ q % 2 = 1) then q + 1 else q
  let m2 : Nat := if m = 2 ^ 53 then 2 ^ 52 else m
  let e2 : Int := if m = 2 ^ 53 then e + 1 else e
  if 971 < e2 then inf neg else finite neg m2 e2

/-- Rounding of `(-1)^neg * (num / den) * 2^e`. -/
def roundScaled (neg : Bool) (num den : Nat) (e : Int) : Double :=
  if 0 ≤ e then roundRat neg (num * 2 ^ e.toNat) den
  else roundRat neg num (den * 2 ^ (-e).toNat)

/-- The conversion of an `int` to `double`. -/
def ofInt (n : Int) : Double := roundRat (decide (n < 0)) n.natAbs 1

/-- The value of the positive decimal literal whose exact value is `num / den`, for
instance `ofLiteral 106 10` for `10.6`. -/
def ofLiteral (num den : Nat) : Double := roundRat false num den

/-- Unary minus. -/
def neg : Double → Double
  | finite s m e => finite (!s) m e
  | inf s => inf (!s)
  | nan => nan

/-- The product `a * b`. -/
def mul : Double → Double → Double
  | nan, _ => nan
  | _, nan => nan
  | inf s, inf t => inf (xor s t)
  | inf s, finite t m _ => if m = 0 then nan else inf (xor s t)
  | finite s m _, inf t => if m = 0 then nan else inf (xor s t)
  | finite s m1 e1, finite t m2 e2 => roundScaled (xor s t) (m1 * m2) 1 (e1 + e2)

/-- The quotient `a / b`. -/
def div : Double → Double → Double
  | nan, _ => nan
  | _, nan => nan
  | inf _, inf _ => nan
  | inf s, finite t _ _ => inf (xor s t)
  | finite s _ _, inf t => finite (xor s t) 0 (-1074)
  | finite s m1 e1, finite t m2 e2 =>
    if m2 = 0 then (if m1 = 0 then nan else inf (xor s t))
    else roundScaled (xor s t) m1 m2 (e1 - e2)

/-- The integer `(-1)^s * m`. -/
def signed (s : Bool) (m : Nat) : Int := if s then -(m : Int) else (m : Int)

/-- The sum `a + b`. -/
def add : Double → Double → Double
  | nan, _ => nan
  | _, nan => nan
  | inf s, inf t => if s = t then inf s else nan
  | inf s, finite _ _ _ => inf s
  | finite _ _ _, inf t => inf t
  | finite s m1 e1, finite t m2 e2 =>
    let e : Int := min e1 e2
    let v : Int := signed s (m1 * 2 ^ (e1 - e).toNat) + signed t (m2 * 2 ^ (e2 - e).toNat)
    if v = 0 then finite (s && t) 0 (-1074) else roundScaled (decide (v < 0)) v.natAbs 1 e

/-- The difference `a - b`. -/
def sub (a b : Double) : Double := add a (neg b)

/-- Whether the value is a number, neither an infinity nor a NaN. -/
def isFinite : Double → Bool
  | finite _ _ _ => true
  | _ => false

/-- The exact value of a finite double. -/
def toRat : Double → Option ℚ
  | finite s m e =>
    some (if 0 ≤ e then ((signed s m * 2 ^ e.toNat : Int) : ℚ)
      else ((signed s m : Int) : ℚ) / ((2 ^ (-e).toNat : Nat) : ℚ))
  | _ => none

end Double

open Double

/-- The constant `M_PI` of `<math.h>`, the double nearest to pi, `0x1.921fb54442d18p+1`. -/
def M_PI : Double := finite false 7074237752028440 (-51)

/-- Modelled from the spec: the conversion `INT2MM` of `utils/intpoint.h`,
`INT2MM(n) = n / 1000`, computed in double precision. -/
def INT2MM (n : Int) : Double := div (ofInt n) (ofInt 1000)

/-- The members of `GCodePathConfig`, in the order of the source. -/
structure GCodePathConfig where
  speed : Double
  line_width : Int
  filament_diameter : Int
  flow : Double
  layer_thickness : Int
  extrusion_volume_per_mm : Double
  extrusion_per_mm : Double
  name : Option String
  spiralize : Bool
  retraction_config : Option Nat
deriving DecidableEq

namespace GCodePathConfig

/-- The default constructor `GCodePathConfig()`; the three arguments are the indeterminate
values of the members its initialiser list does not mention. -/
def ctor (filament_diameter : Int) (flow : Double) (layer_thickness : Int) : GCodePathConfig :=
  { speed := ofInt 0
    line_width := 0
    filament_diameter := filament_diameter
    flow := flow
    layer_thickness := layer_thickness
    extrusion_volume_per_mm := ofInt 0
    extrusion_per_mm := ofInt 0
    name := none
    spiralize := false
    retraction_config := none }

/-- The private method `calculateExtrusion`. -/
def calculateExtrusion (c : GCodePathConfig) : GCodePathConfig :=
  let volume : Double :=
    div (mul (mul (INT2MM c.line_width) (INT2MM c.layer_thickness)) c.flow) (ofInt 100)
  let filament_area : Double :=
    mul (mul M_PI (div (INT2MM c.filament_diameter) (ofInt 2)))
      (div (INT2MM c.filament_diameter) (ofInt 2))
  { c with
    extrusion_volume_per_mm := volume
    extrusion_per_mm := div volume filament_area }

/-- The method `setSpeed(double speed)`. -/
def setSpeed (speed : Double) (c : GCodePathConfig) : GCodePathConfig :=
  { c with speed := speed }

/-- The method `setLineWidth(int line_width)`. -/
def setLineWidth (line_width : Int) (c : GCodePathConfig) : GCodePathConfig :=
  calculateExtrusion { c with line_width := line_width }

/-- The method `setLayerHeight(int layer_height)`. -/
def setLayerHeight (layer_height : Int) (c : GCodePathConfig) : GCodePathConfig :=
  calculateExtrusion { c with layer_thickness := layer_height }

/-- The method `setFilamentDiameter(int diameter)`. -/
def setFilamentDiameter (diameter : Int) (c : GCodePathConfig) : GCodePathConfig :=
  calculateExtrusion { c with filament_diameter := diameter }

/-- The method `setFlow(double flow)`. -/
def setFlow (flow : Double) (c : GCodePathConfig) : GCodePathConfig :=
  calculateExtrusion { c with flow := flow }

/-- The method `smoothSpeed(double min_speed, int layer_nr, double max_speed_layer)`. -/
def smoothSpeed (min_speed : Double) (layer_nr : Int) (max_speed_layer : Double)
    (c : GCodePathConfig) : GCodePathConfig :=
  { c with
    speed :=
      add (div (mul c.speed (ofInt layer_nr)) max_speed_layer)
        (div (mul min_speed (sub max_speed_layer (ofInt layer_nr))) max_speed_layer) }

/-- The method `getExtrusionPerMM(bool volumatric)`, result and state after the call. -/
def getExtrusionPerMM (volumatric : Bool) (c : GCodePathConfig) : Double × GCodePathConfig :=
  if volumatric then (c.extrusion_volume_per_mm, c) else (c.extrusion_per_mm, c)

/-- The method `getSpeed()`, result and state after the call. -/
def getSpeed (c : GCodePathConfig) : Double × GCodePathConfig := (c.speed, c)

end GCodePathConfig

/-- The configuration on which `setLineWidth(400)`, `setLayerHeight(200)`,
`setFilamentDiameter(2850)` and `setFlow(100)` have been called, from the default
constructor. -/
def config400 : GCodePathConfig :=
  GCodePathConfig.setFlow (ofInt 100)
    (GCodePathConfig.setFilamentDiameter 2850
      (GCodePathConfig.setLayerHeight 200
        (GCodePathConfig.setLineWidth 400 (GCodePathConfig.ctor 0 (ofInt 0) 0))))

end ieee

/-! ## Theorems -/

/-- C1: each of the four parameter setters stores its argument in its own member, leaves
the other three parameter members and `speed` unchanged, and afterwards both derived
members are the values computed from the updated members:
`extrusion_volume_per_mm = (line_width/1000) * (layer_thickness/1000) * flow / 100` and
`extrusion_per_mm = extrusion_volume_per_mm / (pi * (filament_diameter/2000)^2)`, the
quotient being undefined exactly when its divisor is zero. -/
theorem C1_setters_store_and_recompute (M_PI : K) (c : GCodePathConfig K) (v : Int) (f : K) :
    ((setLineWidth M_PI v c).line_width = v
      ∧ (setLineWidth M_PI v c).layer_thickness = c.layer_thickness
      ∧ (setLineWidth M_PI v c).filament_diameter = c.filament_diameter
      ∧ (setLineWidth M_PI v c).flow = c.flow
      ∧ (setLineWidth M_PI v c).speed = c.speed
      ∧ (setLineWidth M_PI v c).extrusion_volume_per_mm
          = ((v : K) / 1000) * ((c.layer_thickness : K) / 1000) * c.flow / 100
      ∧ (setLineWidth M_PI v c).extrusion_per_mm
          = fdiv (setLineWidth M_PI v c).extrusion_volume_per_mm
              (M_PI * ((c.filament_diameter : K) / 2000) ^ 2))
    ∧ ((setLayerHeight M_PI v c).layer_thickness = v
      ∧ (setLayerHeight M_PI v c).line_width = c.line_width
      ∧ (setLayerHeight M_PI v c).filament_diameter = c.filament_diameter
      ∧ (setLayerHeight M_PI v c).flow = c.flow
      ∧ (setLayerHeight M_PI v c).speed = c.speed
      ∧ (setLayerHeight M_PI v c).extrusion_volume_per_mm
          = ((c.line_width : K) / 1000) * ((v : K) / 1000) * c.flow / 100
      ∧ (setLayerHeight M_PI v c).extrusion_per_mm
          = fdiv (setLayerHeight M_PI v c).extrusion_volume_per_mm
              (M_PI * ((c.filament_diameter : K) / 2000) ^ 2))
    ∧ ((setFilamentDiameter M_PI v c).filament_diameter = v
      ∧ (setFilamentDiameter M_PI v c).line_width = c.line_width
      ∧ (setFilamentDiameter M_PI v c).layer_thickness = c.layer_thickness
      ∧ (setFilamentDiameter M_PI v c).flow = c.flow
      ∧ (setFilamentDiameter M_PI v c).speed = c.speed
      ∧ (setFilamentDiameter M_PI v c).extrusion_volume_per_mm
          = ((c.line_width : K) / 1000) * ((c.layer_thickness : K) / 1000) * c.flow / 100
      ∧ (setFilamentDiameter M_PI v c).extrusion_per_mm
          = fdiv (setFilamentDiameter M_PI v c).extrusion_volume_per_mm
              (M_PI * ((v : K) / 2000) ^ 2))
    ∧ ((setFlow M_PI f c).flow = f
      ∧ (setFlow M_PI f c).line_width = c.line_width
      ∧ (setFlow M_PI f c).layer_thickness = c.layer_thickness
      ∧ (setFlow M_PI f c).filament_diameter = c.filament_diameter
      ∧ (setFlow M_PI f c).speed = c.speed
      ∧ (setFlow M_PI f c).extrusion_volume_per_mm
          = ((c.line_width : K) / 1000) * ((c.layer_thickness : K) / 1000) * f / 100
      ∧ (setFlow M_PI f c).extrusion_per_mm
          = fdiv (setFlow M_PI f c).extrusion_volume_per_mm
              (M_PI * ((c.filament_diameter : K) / 2000) ^ 2)) := by
  have harea : ∀ d : Int, M_PI * (INT2MM d / 2) * (INT2MM d / 2) = M_PI * ((d : K) / 2000) ^ 2 := by
    intro d
    simp only [INT2MM]
    ring
  refine ⟨⟨rfl, rfl, rfl, rfl, rfl, rfl, ?_⟩, ⟨rfl, rfl, rfl, rfl, rfl, rfl, ?_⟩,
    ⟨rfl, rfl, rfl, rfl, rfl, rfl, ?_⟩, ⟨rfl, rfl, rfl, rfl, rfl, rfl, ?_⟩⟩ <;>
  simp only [setLineWidth, setLayerHeight, setFilamentDiameter, setFlow, calculateExtrusion,
    filament_area, harea]

/-! ### Helper lemmas on the consistency invariant -/

theorem filament_area_eq (M_PI : K) (c : GCodePathConfig K) :
    filament_area M_PI c = M_PI * ((c.filament_diameter : K) / 2000) ^ 2 := by
  simp only [filament_area, INT2MM]
  ring

theorem filament_area_eq_zero_iff (M_PI : K) (hpi : M_PI ≠ 0) (c : GCodePathConfig K) :
    filament_area M_PI c = 0 ↔ c.filament_diameter = 0 := by
  rw [filament_area_eq]
  constructor
  · intro h
    rcases mul_eq_zero.mp h with h | h
    · exact absurd h hpi
    · have h2 : (c.filament_diameter : K) / 2000 = 0 := pow_eq_zero_iff (two_ne_zero) |>.mp h
      have h3 : (c.filament_diameter : K) = 0 := by
        rcases div_eq_zero_iff.mp h2 with h4 | h4
        · exact h4
        · norm_num at h4
      exact_mod_cast h3
  · intro h
    simp [h]

theorem consistent_calculateExtrusion (M_PI : K) (c : GCodePathConfig K) :
    Consistent M_PI (calculateExtrusion M_PI c) := by
  constructor
  · simp only [VolumeConsistent, calculateExtrusion, INT2MM]
  · simp only [LengthConsistent, calculateExtrusion, filament_area_eq]

theorem consistent_apply_of_calls (M_PI : K) (o : Op K) (c : GCodePathConfig K)
    (h : o.callsCalculateExtrusion = true) : Consistent M_PI (o.apply M_PI c) := by
  cases o <;> first
    | exact consistent_calculateExtrusion M_PI _
    | simp [Op.callsCalculateExtrusion] at h

theorem volumeConsistent_apply (M_PI : K) (o : Op K) (c : GCodePathConfig K)
    (h : VolumeConsistent c) : VolumeConsistent (o.apply M_PI c) := by
  cases o <;> first
    | exact (consistent_calculateExtrusion M_PI _).1
    | exact h

theorem lengthConsistent_apply (M_PI : K) (o : Op K) (c : GCodePathConfig K)
    (h : LengthConsistent M_PI c) : LengthConsistent M_PI (o.apply M_PI c) := by
  cases o <;> first
    | exact (consistent_calculateExtrusion M_PI _).2
    | exact h

theorem volumeConsistent_runOps (M_PI : K) (ops : List (Op K)) :
    ∀ c : GCodePathConfig K, VolumeConsistent c → VolumeConsistent (runOps M_PI ops c) := by
  induction ops with
  | nil => intro c h; exact h
  | cons o os ih => intro c h; exact ih _ (volumeConsistent_apply M_PI o c h)

theorem lengthConsistent_runOps (M_PI : K) (ops : List (Op K)) :
    ∀ c : GCodePathConfig K,
      (LengthConsistent M_PI c ∨ ops.any Op.callsCalculateExtrusion = true) →
      LengthConsistent M_PI (runOps M_PI ops c) := by
  induction ops with
  | nil =>
    intro c h
    rcases h with h | h
    · exact h
    · simp at h
  | cons o os ih =>
    intro c h
    apply ih
    rcases h with h | h
    · exact Or.inl (lengthConsistent_apply M_PI o c h)
    · rw [List.any_cons, Bool.or_eq_true] at h
      rcases h with h | h
      · exact Or.inl (consistent_apply_of_calls M_PI o c h).2
      · exact Or.inr h

theorem fdiv_zero_left (b : K) (hb : b ≠ 0) : fdiv (0 : K) b = some 0 := by
  simp [fdiv, hb]

theorem runOps_frame_of_no_calls (M_PI : K) (ops : List (Op K)) :
    ∀ c : GCodePathConfig K, ops.any Op.callsCalculateExtrusion = false →
      (runOps M_PI ops c).filament_diameter = c.filament_diameter
      ∧ (runOps M_PI ops c).extrusion_volume_per_mm = c.extrusion_volume_per_mm
      ∧ (runOps M_PI ops c).extrusion_per_mm = c.extrusion_per_mm := by
  induction ops with
  | nil =>
    intro c _
    exact ⟨rfl, rfl, rfl⟩
  | cons o os ih =>
    intro c h
    rw [List.any_cons, Bool.or_eq_false_iff] at h
    have h2 := ih (o.apply M_PI c) h.2
    cases o with
    | setSpeed v => exact h2
    | smoothSpeed m l L => exact h2
    | setLineWidth v => simp [Op.callsCalculateExtrusion] at h
    | setLayerHeight v => simp [Op.callsCalculateExtrusion] at h
    | setFilamentDiameter v => simp [Op.callsCalculateExtrusion] at h
    | setFlow v => simp [Op.callsCalculateExtrusion] at h

/-! ### Helper lemmas on the double precision product -/

theorem ieee.mul_zero_left (s : Bool) (e : Int) (x : ieee.Double) :
    (∃ t : Bool, ieee.Double.mul (ieee.Double.finite s 0 e) x = ieee.Double.finite t 0 (-1074))
    ∨ ieee.Double.mul (ieee.Double.finite s 0 e) x = ieee.Double.nan := by
  cases x with
  | nan => exact Or.inr rfl
  | inf t => exact Or.inr (by simp [ieee.Double.mul])
  | finite t m e2 =>
    left
    refine ⟨xor s t, ?_⟩
    by_cases h : 0 ≤ e + e2 <;>
    simp [ieee.Double.mul, ieee.Double.roundScaled, ieee.Double.roundRat, h]

theorem ieee.mul_not_finite (z flow : ieee.Double)
    (hz : (∃ t : Bool, z = ieee.Double.finite t 0 (-1074)) ∨ z = ieee.Double.nan)
    (h : flow.isFinite = false) : ieee.Double.mul z flow = ieee.Double.nan := by
  rcases hz with ⟨t, rfl⟩ | rfl
  · cases flow with
    | nan => rfl
    | inf u => simp [ieee.Double.mul]
    | finite u m e => simp [ieee.Double.isFinite] at h
  · cases flow <;> rfl

theorem ieee.fresh_volume_nan (filament_diameter layer_thickness : Int) (flow : ieee.Double)
    (h : flow.isFinite = false) :
    (ieee.GCodePathConfig.calculateExtrusion
      (ieee.GCodePathConfig.ctor filament_diameter flow
        layer_thickness)).extrusion_volume_per_mm = ieee.Double.nan := by
  have h0 : ieee.INT2MM 0 = ieee.Double.finite false 0 (-1074) := by decide!
  show ieee.Double.div
    (ieee.Double.mul (ieee.Double.mul (ieee.INT2MM 0) (ieee.INT2MM layer_thickness)) flow)
    (ieee.Double.ofInt 100) = ieee.Double.nan
  rw [h0, ieee.mul_not_finite _ flow (ieee.mul_zero_left false (-1074) _) h]
  cases ieee.Double.ofInt 100 <;> rfl

/-! ### C2 -/

/-- C2, counterexample: the state built by the default constructor when the unset member
`filament_diameter` happens to hold 0 (no operation called yet) does not satisfy the
consistency invariant: `extrusion_per_mm` is 0 while the quotient
`extrusion_volume_per_mm / (pi * (filament_diameter/2000)^2)` has divisor zero. -/
theorem C2_counterexample :
    ¬ Consistent Real.pi (runOps Real.pi [] (ctor 0 100 200 : GCodePathConfig ℝ)) := by
  intro h
  have h2 := h.2
  simp [LengthConsistent, runOps, ctor, fdiv] at h2

/-- C2, amended: in exact real arithmetic, in every state reachable from either constructor
by a finite sequence of the public operations that contains one of the four parameter
setters, both derived members agree with the stored parameters.  In a state reached
without any parameter setter the derived members are the zeros the constructor stored: the
volume equation holds when the unset `flow` is a real number, and the length equation holds
exactly when the unset `filament_diameter` is not zero.  In double precision, for an unset
`flow` that is an infinity or a NaN the volume formula of the fresh state evaluates to a
NaN, while the stored volume is 0. -/
theorem C2_consistent_reachable (M_PI : K) (hpi : M_PI ≠ 0) (ops : List (Op K))
    (filament_diameter : Int) (flow : K) (layer_thickness : Int)
    (retraction_config : Option Nat) (name : Option String) :
    (ops.any Op.callsCalculateExtrusion = true →
      Consistent M_PI (runOps M_PI ops (ctor filament_diameter flow layer_thickness))
      ∧ Consistent M_PI
          (runOps M_PI ops
            (ctorNamed retraction_config name filament_diameter flow layer_thickness)))
    ∧ (ops.any Op.callsCalculateExtrusion = false →
      VolumeConsistent (runOps M_PI ops (ctor filament_diameter flow layer_thickness))
      ∧ VolumeConsistent
          (runOps M_PI ops
            (ctorNamed retraction_config name filament_diameter flow layer_thickness))
      ∧ (LengthConsistent M_PI (runOps M_PI ops (ctor filament_diameter flow layer_thickness))
          ↔ filament_diameter ≠ 0)
      ∧ (LengthConsistent M_PI
            (runOps M_PI ops
              (ctorNamed retraction_config name filament_diameter flow layer_thickness))
          ↔ filament_diameter ≠ 0))
    ∧ (∀ unset_flow : ieee.Double, unset_flow.isFinite = false →
      (ieee.GCodePathConfig.ctor filament_diameter unset_flow
          layer_thickness).extrusion_volume_per_mm = ieee.Double.finite false 0 (-1074)
      ∧ (ieee.GCodePathConfig.calculateExtrusion
          (ieee.GCodePathConfig.ctor filament_diameter unset_flow
            layer_thickness)).extrusion_volume_per_mm = ieee.Double.nan) := by
  have hv1 : VolumeConsistent (ctor filament_diameter flow layer_thickness) := by
    simp [VolumeConsistent, ctor]
  have hv2 : VolumeConsistent
      (ctorNamed retraction_config name filament_diameter flow layer_thickness) := by
    simp [VolumeConsistent, ctorNamed]
  have harea : (M_PI * ((filament_diameter : K) / 2000) ^ 2 = 0) ↔ filament_diameter = 0 := by
    constructor
    · intro h
      by_contra hd
      have hd2 : (filament_diameter : K) ≠ 0 := by exact_mod_cast hd
      have hne : M_PI * ((filament_diameter : K) / 2000) ^ 2 ≠ 0 := by positivity
      exact hne h
    · intro h
      simp [h]
  have hfresh : (some (0 : K) = fdiv 0 (M_PI * ((filament_diameter : K) / 2000) ^ 2))
      ↔ filament_diameter ≠ 0 := by
    constructor
    · intro h hd
      rw [harea.mpr hd] at h
      simp [fdiv] at h
    · intro hd
      exact (fdiv_zero_left _ (fun h => hd (harea.mp h))).symm
  refine ⟨?_, ?_, ?_⟩
  · intro h
    exact ⟨⟨volumeConsistent_runOps M_PI ops _ hv1,
        lengthConsistent_runOps M_PI ops _ (Or.inr h)⟩,
      ⟨volumeConsistent_runOps M_PI ops _ hv2,
        lengthConsistent_runOps M_PI ops _ (Or.inr h)⟩⟩
  · intro h
    obtain ⟨hd1, hvol1, hlen1⟩ :=
      runOps_frame_of_no_calls M_PI ops (ctor filament_diameter flow layer_thickness) h
    obtain ⟨hd2, hvol2, hlen2⟩ :=
      runOps_frame_of_no_calls M_PI ops
        (ctorNamed retraction_config name filament_diameter flow layer_thickness) h
    refine ⟨volumeConsistent_runOps M_PI ops _ hv1, volumeConsistent_runOps M_PI ops _ hv2,
      ?_, ?_⟩
    · unfold LengthConsistent
      rw [hd1, hvol1, hlen1]
      exact hfresh
    · unfold LengthConsistent
      rw [hd2, hvol2, hlen2]
      exact hfresh
  · intro unset_flow h
    have h0 : ieee.Double.ofInt 0 = ieee.Double.finite false 0 (-1074) := by decide!
    exact ⟨h0, ieee.fresh_volume_nan filament_diameter layer_thickness unset_flow h⟩

/-- C2, witness: the amended invariant at the real number pi, for the default constructor
with all unset members 0 followed by `setLineWidth(400)`, `setLayerHeight(200)`,
`setFilamentDiameter(2850)`, `setFlow(100)` and `setSpeed(60)`: the stored volume is 0.08
and the stored length is the quotient by the filament area of a 2850 micron filament. -/
theorem C2_consistent_reachable_witness :
    Real.pi ≠ 0
    ∧ [Op.setLineWidth 400, Op.setLayerHeight 200, Op.setFilamentDiameter 2850,
        Op.setFlow 100, Op.setSpeed (60 : ℝ)].any Op.callsCalculateExtrusion = true
    ∧ Consistent Real.pi
        (runOps Real.pi
          [Op.setLineWidth 400, Op.setLayerHeight 200, Op.setFilamentDiameter 2850,
            Op.setFlow 100, Op.setSpeed (60 : ℝ)] (ctor 0 0 0)) :=
  ⟨Real.pi_ne_zero, by simp [Op.callsCalculateExtrusion],
    ((C2_consistent_reachable Real.pi Real.pi_ne_zero
      [Op.setLineWidth 400, Op.setLayerHeight 200, Op.setFilamentDiameter 2850,
        Op.setFlow 100, Op.setSpeed (60 : ℝ)] 0 0 0 none none).1
      (by simp [Op.callsCalculateExtrusion])).1⟩

/-! ### Helper lemmas on `smoothSpeed` -/

theorem smoothSpeed_speed (c : GCodePathConfig K) (s m L : K) (l : Int)
    (hs : c.speed = some s) (hL : L ≠ 0) :
    (smoothSpeed m l L c).speed = some (s * (l : K) / L + m * (L - (l : K)) / L) := by
  simp [smoothSpeed, hs, fdiv, fadd, hL]

/-! ### C3 -/

/-- C3, amended: `setSpeed` and `smoothSpeed` write the member `speed` only: the four
parameters and the two derived members are unchanged, so `getExtrusionPerMM(b)` returns the
same value before and after, for both `b`, in exact arithmetic and in double precision
alike.  In exact real arithmetic, after width 400, layer height 200, filament diameter 2850
and flow 100 have been set, `getExtrusionPerMM(true)` is 0.08 and
`getExtrusionPerMM(false)` is `0.08 / (pi * 1.425^2)`, also after any `setSpeed`. -/
theorem C3_speed_operations_frame (M_PI : K) (hpi : M_PI ≠ 0) (c : GCodePathConfig K)
    (s m L : K) (l : Int) (b : Bool) :
    ((setSpeed s c).line_width = c.line_width
      ∧ (setSpeed s c).layer_thickness = c.layer_thickness
      ∧ (setSpeed s c).filament_diameter = c.filament_diameter
      ∧ (setSpeed s c).flow = c.flow
      ∧ (setSpeed s c).extrusion_volume_per_mm = c.extrusion_volume_per_mm
      ∧ (setSpeed s c).extrusion_per_mm = c.extrusion_per_mm
      ∧ (getExtrusionPerMM b (setSpeed s c)).1 = (getExtrusionPerMM b c).1)
    ∧ ((smoothSpeed m l L c).line_width = c.line_width
      ∧ (smoothSpeed m l L c).layer_thickness = c.layer_thickness
      ∧ (smoothSpeed m l L c).filament_diameter = c.filament_diameter
      ∧ (smoothSpeed m l L c).flow = c.flow
      ∧ (smoothSpeed m l L c).extrusion_volume_per_mm = c.extrusion_volume_per_mm
      ∧ (smoothSpeed m l L c).extrusion_per_mm = c.extrusion_per_mm
      ∧ (getExtrusionPerMM b (smoothSpeed m l L c)).1 = (getExtrusionPerMM b c).1)
    ∧ ((getExtrusionPerMM true
          (setFlow M_PI 100 (setFilamentDiameter M_PI 2850
            (setLayerHeight M_PI 200 (setLineWidth M_PI 400 c))))).1 = some 0.08
      ∧ (getExtrusionPerMM false
          (setFlow M_PI 100 (setFilamentDiameter M_PI 2850
            (setLayerHeight M_PI 200 (setLineWidth M_PI 400 c))))).1
          = some (0.08 / (M_PI * 1.425 ^ 2))
      ∧ (getExtrusionPerMM true
          (setSpeed s (setFlow M_PI 100 (setFilamentDiameter M_PI 2850
            (setLayerHeight M_PI 200 (setLineWidth M_PI 400 c)))))).1 = some 0.08
      ∧ (getExtrusionPerMM false
          (setSpeed s (setFlow M_PI 100 (setFilamentDiameter M_PI 2850
            (setLayerHeight M_PI 200 (setLineWidth M_PI 400 c)))))).1
          = some (0.08 / (M_PI * 1.425 ^ 2)))
    ∧ (∀ (d : ieee.GCodePathConfig) (x y z : ieee.Double) (n : Int),
        (ieee.GCodePathConfig.getExtrusionPerMM b (ieee.GCodePathConfig.setSpeed x d)).1
          = (ieee.GCodePathConfig.getExtrusionPerMM b d).1
        ∧ (ieee.GCodePathConfig.getExtrusionPerMM b
            (ieee.GCodePathConfig.smoothSpeed y n z d)).1
          = (ieee.GCodePathConfig.getExtrusionPerMM b d).1) := by
  have hvol : (INT2MM 400 : K) * INT2MM 200 * 100 / 100 = 0.08 := by
    simp only [INT2MM]
    norm_num
  have harea : M_PI * ((INT2MM 2850 : K) / 2) * (INT2MM 2850 / 2) = M_PI * 1.425 ^ 2 := by
    simp only [INT2MM]
    norm_num
    ring
  have hne : M_PI * (1.425 : K) ^ 2 ≠ 0 := by
    have h2 : (1.425 : K) ≠ 0 := by norm_num
    positivity
  have htrue : (getExtrusionPerMM true
      (setFlow M_PI 100 (setFilamentDiameter M_PI 2850
        (setLayerHeight M_PI 200 (setLineWidth M_PI 400 c))))).1 = some 0.08 := by
    simp only [getExtrusionPerMM, setFlow, setFilamentDiameter, setLayerHeight, setLineWidth,
      calculateExtrusion, if_true, hvol]
  have hfalse : (getExtrusionPerMM false
      (setFlow M_PI 100 (setFilamentDiameter M_PI 2850
        (setLayerHeight M_PI 200 (setLineWidth M_PI 400 c))))).1
        = some (0.08 / (M_PI * 1.425 ^ 2)) := by
    simp only [getExtrusionPerMM, setFlow, setFilamentDiameter, setLayerHeight, setLineWidth,
      calculateExtrusion, filament_area, hvol, harea, fdiv, if_neg hne]
    simp
  refine ⟨⟨rfl, rfl, rfl, rfl, rfl, rfl, ?_⟩, ⟨rfl, rfl, rfl, rfl, rfl, rfl, ?_⟩,
    ⟨htrue, hfalse, ?_, ?_⟩, ?_⟩
  · cases b <;> rfl
  · cases b <;> rfl
  · exact htrue
  · exact hfalse
  · intro d x y z n
    cases b <;> exact ⟨rfl, rfl⟩

/-- C3, witness: the statement at the real number pi, from the default constructor with all
unset members 0, for `setSpeed(60)` and `smoothSpeed(20, 1, 4)`. -/
theorem C3_speed_operations_frame_witness :
    Real.pi ≠ 0
    ∧ (getExtrusionPerMM false
        (setSpeed (60 : ℝ) (setFlow Real.pi 100 (setFilamentDiameter Real.pi 2850
          (setLayerHeight Real.pi 200 (setLineWidth Real.pi 400 (ctor 0 0 0))))))).1
        = some (0.08 / (Real.pi * 1.425 ^ 2)) :=
  ⟨Real.pi_ne_zero,
    (C3_speed_operations_frame Real.pi Real.pi_ne_zero (ctor 0 0 0) 60 20 4 1
      false).2.2.1.2.2.2⟩

/-! ### C4 -/

/-- C4: for a configuration whose current speed is `s`, and `max_speed_layer = L` not
zero, the speed after `smoothSpeed(m, l, L)` is `s*l/L + m*(L-l)/L`; with `l = 0` it is
`m`, and with `l = L` it is `s`. -/
theorem C4_smoothSpeed_interpolates (c : GCodePathConfig K) (s m L : K) (l : Int)
    (hs : c.speed = some s) (hL : L ≠ 0) :
    (smoothSpeed m l L c).speed = some (s * (l : K) / L + m * (L - (l : K)) / L)
    ∧ (smoothSpeed m 0 L c).speed = some m
    ∧ ((l : K) = L → (smoothSpeed m l L c).speed = some s) := by
  refine ⟨smoothSpeed_speed c s m L l hs hL, ?_, ?_⟩
  · rw [smoothSpeed_speed c s m L 0 hs hL]
    congr 1
    field_simp
  · intro hl
    rw [smoothSpeed_speed c s m L l hs hL, hl]
    congr 1
    field_simp

/-- C4, witness: nominal speed 60, minimal speed 20, layer 4 of 4 over the rationals. -/
theorem C4_smoothSpeed_interpolates_witness :
    (setSpeed (60 : ℚ) (ctor 0 0 0)).speed = some 60 ∧ (4 : ℚ) ≠ 0
    ∧ (smoothSpeed 20 4 4 (setSpeed (60 : ℚ) (ctor 0 0 0))).speed = some 60 :=
  ⟨rfl, by norm_num,
    (C4_smoothSpeed_interpolates (setSpeed (60 : ℚ) (ctor 0 0 0)) 60 20 4 4 rfl
      (by norm_num)).2.2 (by norm_num)⟩

/-! ### C5 -/

/-- C5, counterexample: nominal speed 60 set once, minimal speed 20, ramp over `L = 2`
layers; after the calls for the layers 0, 1, 2 the speed is 20, not the nominal speed
`60*2/2 + 20*(2-2)/2 = 60`. -/
theorem C5_counterexample :
    (getSpeed (smoothSpeedUpTo (20 : ℚ) 2 2 (setSpeed 60 (ctor 0 0 0)))).1 = some 20
    ∧ (getSpeed (smoothSpeedUpTo (20 : ℚ) 2 2 (setSpeed 60 (ctor 0 0 0)))).1
        ≠ some (60 * 2 / 2 + 20 * (2 - 2) / 2) := by
  have h : (getSpeed (smoothSpeedUpTo (20 : ℚ) 2 2 (setSpeed 60 (ctor 0 0 0)))).1
      = some 20 := by
    simp only [getSpeed, smoothSpeedUpTo, smoothSpeed, setSpeed, ctor, fdiv, fadd,
      Option.bind]
    norm_num
  refine ⟨h, ?_⟩
  rw [h]
  norm_num

/-- C5, amended: in exact real arithmetic, with `max_speed_layer = L` not zero, when
`smoothSpeed(m, j, L)` is called once per layer for `j = 0, 1, ..., k` after a single
`setSpeed(s)`, `getSpeed()` is `m` after every layer `k` (the call for layer 0 stores `m`,
and each later call interpolates between `m` and `m`); the ramp `s*k/L + m*(L-k)/L` is the
speed after layer `k` when the caller calls `setSpeed(s)` again before each
`smoothSpeed`. -/
theorem C5_ramp_needs_setSpeed (c : GCodePathConfig K) (s m L : K) (k : Nat) (hL : L ≠ 0) :
    (getSpeed (smoothSpeedUpTo m L k (setSpeed s c))).1 = some m
    ∧ (getSpeed (setAndSmoothUpTo s m L k c)).1
        = some (s * (k : K) / L + m * (L - (k : K)) / L) := by
  constructor
  · show (smoothSpeedUpTo m L k (setSpeed s c)).speed = some m
    induction k with
    | zero =>
      show (smoothSpeed m 0 L (setSpeed s c)).speed = some m
      rw [smoothSpeed_speed (setSpeed s c) s m L 0 rfl hL]
      congr 1
      field_simp
    | succ n ih =>
      show (smoothSpeed m ((n + 1 : Nat) : Int) L
        (smoothSpeedUpTo m L n (setSpeed s c))).speed = some m
      rw [smoothSpeed_speed _ m m L _ ih hL]
      congr 1
      field_simp
      ring
  · show (setAndSmoothUpTo s m L k c).speed = _
    cases k with
    | zero =>
      show (smoothSpeed m 0 L (setSpeed s c)).speed = _
      rw [smoothSpeed_speed (setSpeed s c) s m L 0 rfl hL]
      simp
    | succ n =>
      show (smoothSpeed m ((n + 1 : Nat) : Int) L
        (setSpeed s (setAndSmoothUpTo s m L n c))).speed = _
      rw [smoothSpeed_speed _ s m L _ rfl hL]
      simp

/-- C5, witness: nominal speed 60, minimal speed 20, `L = 2`, after layer 1. -/
theorem C5_ramp_needs_setSpeed_witness :
    (2 : ℚ) ≠ 0
    ∧ (getSpeed (smoothSpeedUpTo 20 2 1 (setSpeed (60 : ℚ) (ctor 0 0 0)))).1 = some 20
    ∧ (getSpeed (setAndSmoothUpTo (60 : ℚ) 20 2 1 (ctor 0 0 0))).1
        = some (60 * ((1 : Nat) : ℚ) / 2 + 20 * (2 - ((1 : Nat) : ℚ)) / 2) :=
  ⟨by norm_num, C5_ramp_needs_setSpeed (ctor 0 0 0) 60 20 2 1 (by norm_num)⟩

/-! ### C6 -/

/-- C6, amended: in exact real arithmetic, for a configuration with speed `s` and `L` not
zero, two calls of `smoothSpeed(m, l, L)` in a row leave the same speed as one call if and
only if `l = 0` or `l = L` or `s = m`; so for `0 < l < L` and `s ≠ m` the second call
changes the speed again. -/
theorem C6_smoothSpeed_twice (c : GCodePathConfig K) (s m L : K) (l : Int)
    (hs : c.speed = some s) (hL : L ≠ 0) :
    ((smoothSpeed m l L (smoothSpeed m l L c)).speed = (smoothSpeed m l L c).speed
      ↔ (l = 0 ∨ (l : K) = L ∨ s = m))
    ∧ (0 < l → (l : K) < L → s ≠ m →
        (smoothSpeed m l L (smoothSpeed m l L c)).speed ≠ (smoothSpeed m l L c).speed) := by
  have h1 := smoothSpeed_speed c s m L l hs hL
  have h2 := smoothSpeed_speed (smoothSpeed m l L c) _ m L l h1 hL
  have key : (s * (l : K) / L + m * (L - (l : K)) / L) * (l : K) / L + m * (L - (l : K)) / L
      - (s * (l : K) / L + m * (L - (l : K)) / L)
      = (m - s) * (L - (l : K)) * (l : K) / (L * L) := by
    field_simp
    ring
  have hiff : (smoothSpeed m l L (smoothSpeed m l L c)).speed = (smoothSpeed m l L c).speed
      ↔ (l = 0 ∨ (l : K) = L ∨ s = m) := by
    rw [h2, h1, Option.some_inj, ← sub_eq_zero, key, div_eq_zero_iff]
    constructor
    · intro h
      rcases h with h | h
      · rcases mul_eq_zero.mp h with h | h
        · rcases mul_eq_zero.mp h with h | h
          · exact Or.inr (Or.inr (sub_eq_zero.mp h).symm)
          · exact Or.inr (Or.inl (sub_eq_zero.mp h).symm)
        · exact Or.inl (by exact_mod_cast h)
      · exact absurd h (mul_ne_zero hL hL)
    · intro h
      left
      rcases h with h | h | h
      · simp [h]
      · simp [h]
      · simp [h]
  refine ⟨hiff, ?_⟩
  intro hl0 hlL hsm h
  rcases hiff.mp h with h | h | h
  · exact absurd h (ne_of_gt hl0)
  · exact absurd h (ne_of_lt hlL)
  · exact hsm h

/-- C6, witness: speed 60, minimal speed 20, layer 1 of 2: the second call changes the
speed again. -/
theorem C6_smoothSpeed_twice_witness :
    (setSpeed (60 : ℚ) (ctor 0 0 0)).speed = some 60 ∧ (2 : ℚ) ≠ 0
    ∧ (smoothSpeed 20 1 2 (smoothSpeed 20 1 2 (setSpeed (60 : ℚ) (ctor 0 0 0)))).speed
        ≠ (smoothSpeed 20 1 2 (setSpeed (60 : ℚ) (ctor 0 0 0))).speed :=
  ⟨rfl, by norm_num,
    (C6_smoothSpeed_twice (setSpeed (60 : ℚ) (ctor 0 0 0)) 60 20 2 1 rfl (by norm_num)).2
      (by norm_num) (by norm_num) (by norm_num)⟩

/-! ### C7 -/

/-- C7, counterexample: `setFilamentDiameter(0)` on a configuration with width 400, layer
height 200, diameter 2850 and flow 100: the divisor `filament_area` used by
`calculateExtrusion` is zero and the stored `extrusion_per_mm` is not a number. -/
theorem C7_counterexample :
    filament_area Real.pi
        (setFilamentDiameter Real.pi 0
          (setLineWidth Real.pi 400 (ctor 2850 (100 : ℝ) 200))) = 0
    ∧ (getExtrusionPerMM false
        (setFilamentDiameter Real.pi 0
          (setLineWidth Real.pi 400 (ctor 2850 (100 : ℝ) 200)))).1 = none := by
  constructor
  · simp [filament_area, setFilamentDiameter, calculateExtrusion, INT2MM]
  · simp [getExtrusionPerMM, filament_area, setFilamentDiameter, calculateExtrusion, INT2MM,
      fdiv]

/-- C7, amended: the four parameter setters perform no validation.  In exact real
arithmetic, after each of them the division by
`filament_area = pi * (filament_diameter/2000)^2` in `calculateExtrusion` is not a division
by zero, and `extrusion_per_mm` is a number, exactly when the filament diameter stored after
the call is not zero: the argument for `setFilamentDiameter`, the member
`filament_diameter` of the state before the call for the other three.  In double precision
an argument that is not a number is stored as it is: after `setFlow(NaN)` both derived
members are NaN, whatever the diameter. -/
theorem C7_division_defined_iff (M_PI : K) (hpi : M_PI ≠ 0) (c : GCodePathConfig K)
    (v : Int) (f : K) :
    ((filament_area M_PI (setLineWidth M_PI v c) ≠ 0 ↔ c.filament_diameter ≠ 0)
      ∧ ((getExtrusionPerMM false (setLineWidth M_PI v c)).1.isSome = true
          ↔ c.filament_diameter ≠ 0))
    ∧ ((filament_area M_PI (setLayerHeight M_PI v c) ≠ 0 ↔ c.filament_diameter ≠ 0)
      ∧ ((getExtrusionPerMM false (setLayerHeight M_PI v c)).1.isSome = true
          ↔ c.filament_diameter ≠ 0))
    ∧ ((filament_area M_PI (setFilamentDiameter M_PI v c) ≠ 0 ↔ v ≠ 0)
      ∧ ((getExtrusionPerMM false (setFilamentDiameter M_PI v c)).1.isSome = true ↔ v ≠ 0))
    ∧ ((filament_area M_PI (setFlow M_PI f c) ≠ 0 ↔ c.filament_diameter ≠ 0)
      ∧ ((getExtrusionPerMM false (setFlow M_PI f c)).1.isSome = true
          ↔ c.filament_diameter ≠ 0))
    ∧ (∀ d : ieee.GCodePathConfig,
        (ieee.GCodePathConfig.getExtrusionPerMM true
          (ieee.GCodePathConfig.setFlow ieee.Double.nan d)).1 = ieee.Double.nan
        ∧ (ieee.GCodePathConfig.getExtrusionPerMM false
          (ieee.GCodePathConfig.setFlow ieee.Double.nan d)).1 = ieee.Double.nan) := by
  have hsome : ∀ a b : K, (fdiv a b).isSome = true ↔ b ≠ 0 := by
    intro a b
    by_cases hb : b = 0 <;> simp [fdiv, hb]
  have hcalc : ∀ c0 : GCodePathConfig K,
      (filament_area M_PI (calculateExtrusion M_PI c0) ≠ 0 ↔ c0.filament_diameter ≠ 0)
      ∧ ((getExtrusionPerMM false (calculateExtrusion M_PI c0)).1.isSome = true
          ↔ c0.filament_diameter ≠ 0) := by
    intro c0
    have h0 := filament_area_eq_zero_iff M_PI hpi c0
    refine ⟨not_congr h0, ?_⟩
    show (fdiv _ (filament_area M_PI c0)).isSome = true ↔ _
    rw [hsome]
    exact not_congr h0
  have hmul : ∀ x : ieee.Double, ieee.Double.mul x ieee.Double.nan = ieee.Double.nan := by
    intro x
    cases x <;> rfl
  have hdiv : ∀ y : ieee.Double, ieee.Double.div ieee.Double.nan y = ieee.Double.nan := by
    intro y
    cases y <;> rfl
  refine ⟨hcalc _, hcalc _, hcalc _, hcalc _, ?_⟩
  intro d
  constructor
  · show ieee.Double.div (ieee.Double.mul _ ieee.Double.nan) _ = ieee.Double.nan
    rw [hmul, hdiv]
  · show ieee.Double.div (ieee.Double.div (ieee.Double.mul _ ieee.Double.nan) _) _
      = ieee.Double.nan
    rw [hmul, hdiv, hdiv]

/-- C7, witness: at the real number pi, `setFilamentDiameter(2850)` on the default
constructor with all unset members 0 stores a number in `extrusion_per_mm`. -/
theorem C7_division_defined_iff_witness :
    Real.pi ≠ 0
    ∧ (getExtrusionPerMM false
        (setFilamentDiameter Real.pi 2850 (ctor 0 (0 : ℝ) 0))).1.isSome = true :=
  ⟨Real.pi_ne_zero,
    (C7_division_defined_iff Real.pi Real.pi_ne_zero (ctor 0 (0 : ℝ) 0) 2850 0).2.2.1.2.mpr
      (by decide)⟩

/-! ### C8 -/

theorem filter_forLoop {α : Type} (start stop : Nat) (body : Nat → α) (p : α → Bool)
    (n : Nat) (hp : ∀ i, p (body i) = decide (i = n)) :
    (forLoop start stop body).filter p
      = if start ≤ n ∧ n < stop then [body n] else [] := by
  have key : ∀ k : Nat, ((List.range k).map fun i => body (start + i)).filter p
      = if start ≤ n ∧ n < start + k then [body n] else [] := by
    intro k
    induction k with
    | zero =>
      have h0 : ¬ (start ≤ n ∧ n < start + 0) := by omega
      simp [h0]
    | succ k ih =>
      rw [List.range_succ, List.map_append, List.filter_append, ih]
      by_cases h1 : start + k = n
      · have h2 : ¬ (start ≤ n ∧ n < start + k) := by omega
        have h3 : start ≤ n ∧ n < start + (k + 1) := by omega
        simp [h2, h3, hp, h1]
      · by_cases h2 : start ≤ n ∧ n < start + k
        · have h3 : start ≤ n ∧ n < start + (k + 1) := by omega
          simp [h2, h3, hp, h1]
        · have h3 : ¬ (start ≤ n ∧ n < start + (k + 1)) := by omega
          simp [h2, h3, hp, h1]
  unfold forLoop
  rw [key]
  by_cases h : start ≤ n ∧ n < stop
  · have h2 : start ≤ n ∧ n < start + (stop - start) := by omega
    simp [h, h2]
  · have h2 : ¬ (start ≤ n ∧ n < start + (stop - start)) := by omega
    simp [h, h2]

theorem filter_forLoop_none {α : Type} (start stop : Nat) (body : Nat → α) (p : α → Bool)
    (hp : ∀ i, p (body i) = false) : (forLoop start stop body).filter p = [] := by
  unfold forLoop
  rw [List.filter_eq_nil_iff]
  intro a ha
  rcases List.mem_map.mp ha with ⟨i, _, rfl⟩
  simp [hp]

/-- C9, counterexample: with `MAX_EXTRUDERS = 16`, `preSetup` makes no call
`setExtruderOffset(0, _)` for extruder 0. -/
theorem C9_counterexample :
    (preSetup 16 zeroSettings).filter (Call.isSetExtruderOffset 0) = [] := by
  decide

/-- C9, amended: `preSetup` calls `setExtruderOffset(n, P)` exactly once for every
extruder index `n` with `1 ≤ n < MAX_EXTRUDERS` and for no other `n` (in particular not
for extruder 0), with `P` built from the settings `machine_nozzle_offset_x_<n>` and
`machine_nozzle_offset_y_<n>`; it calls `setSwitchExtruderCode(n, pre, post)` exactly once
for every `n` with `0 ≤ n < MAX_EXTRUDERS`, with `pre` and `post` read from
`machine_pre_extruder_switch_code_<n>` and `machine_post_extruder_switch_code_<n>`; it then
calls `setFlavor` and `setRetractionSettings`, exactly once each. -/
theorem C9_preSetup_calls {R F : Type} (MAX_EXTRUDERS : Nat) (settings : SettingsBase R F)
    (n : Nat) :
    (preSetup MAX_EXTRUDERS settings).filter (Call.isSetExtruderOffset n)
      = (if 1 ≤ n ∧ n < MAX_EXTRUDERS then
          [Call.setExtruderOffset n
            { X := settings.getSettingInMicrons ("machine_nozzle_offset_x_" ++ toString n)
              Y := settings.getSettingInMicrons ("machine_nozzle_offset_y_" ++ toString n) }]
        else [])
    ∧ (preSetup MAX_EXTRUDERS settings).filter (Call.isSetSwitchExtruderCode n)
      = (if n < MAX_EXTRUDERS then
          [Call.setSwitchExtruderCode n
            (settings.getSettingString ("machine_pre_extruder_switch_code_" ++ toString n))
            (settings.getSettingString ("machine_post_extruder_switch_code_" ++ toString n))]
        else [])
    ∧ (preSetup MAX_EXTRUDERS settings).filter Call.isSetFlavor
      = [Call.setFlavor (settings.getSettingAsGCodeFlavor "machine_gcode_flavor")]
    ∧ (preSetup MAX_EXTRUDERS settings).filter Call.isSetRetractionSettings
      = [Call.setRetractionSettings
          (settings.getSettingInMicrons "machine_switch_extruder_retraction_amount")
          (settings.getSettingInMillimetersPerSecond
            "material_switch_extruder_retraction_speed")
          (settings.getSettingInMillimetersPerSecond "material_switch_extruder_prime_speed")
          (settings.getSettingInMicrons "retraction_extrusion_window")
          (settings.getSettingInMicrons "retraction_count_max")]
    ∧ (∃ loops : List (Call R F),
        preSetup MAX_EXTRUDERS settings
          = loops ++ [Call.setFlavor (settings.getSettingAsGCodeFlavor "machine_gcode_flavor"),
              Call.setRetractionSettings
                (settings.getSettingInMicrons "machine_switch_extruder_retraction_amount")
                (settings.getSettingInMillimetersPerSecond
                  "material_switch_extruder_retraction_speed")
                (settings.getSettingInMillimetersPerSecond
                  "material_switch_extruder_prime_speed")
                (settings.getSettingInMicrons "retraction_extrusion_window")
                (settings.getSettingInMicrons "retraction_count_max")]) := by
  have hkey : ∀ (a : String) (i : Nat), a ++ ("_" ++ toString i) = (a ++ "_") ++ toString i := by
    intro a i
    rw [String.append_assoc]
  refine ⟨?_, ?_, ?_, ?_, ?_⟩
  · simp only [preSetup, List.filter_append]
    rw [filter_forLoop 1 MAX_EXTRUDERS _ (Call.isSetExtruderOffset n) n
        (fun i => by simp [extruderOffsetCall, Call.isSetExtruderOffset]),
      filter_forLoop_none 0 MAX_EXTRUDERS _ (Call.isSetExtruderOffset n)
        (fun i => by simp [switchExtruderCodeCall, Call.isSetExtruderOffset])]
    simp [flavorCall, retractionSettingsCall, Call.isSetExtruderOffset, extruderOffsetCall]
  · simp only [preSetup, List.filter_append]
    rw [filter_forLoop_none 1 MAX_EXTRUDERS _ (Call.isSetSwitchExtruderCode n)
        (fun i => by simp [extruderOffsetCall, Call.isSetSwitchExtruderCode]),
      filter_forLoop 0 MAX_EXTRUDERS _ (Call.isSetSwitchExtruderCode n) n
        (fun i => by simp [switchExtruderCodeCall, Call.isSetSwitchExtruderCode])]
    have h1 : "machine_pre_extruder_switch_code" ++ "_" = "machine_pre_extruder_switch_code_" :=
      by decide
    have h2 : "machine_post_extruder_switch_code" ++ "_"
        = "machine_post_extruder_switch_code_" := by decide
    simp [flavorCall, retractionSettingsCall, Call.isSetSwitchExtruderCode,
      switchExtruderCodeCall, hkey, h1, h2]
  · simp only [preSetup, List.filter_append]
    rw [filter_forLoop_none 1 MAX_EXTRUDERS _ Call.isSetFlavor
        (fun i => by simp [extruderOffsetCall, Call.isSetFlavor]),
      filter_forLoop_none 0 MAX_EXTRUDERS _ Call.isSetFlavor
        (fun i => by simp [switchExtruderCodeCall, Call.isSetFlavor])]
    simp [flavorCall, retractionSettingsCall, Call.isSetFlavor]
  · simp only [preSetup, List.filter_append]
    rw [filter_forLoop_none 1 MAX_EXTRUDERS _ Call.isSetRetractionSettings
        (fun i => by simp [extruderOffsetCall, Call.isSetRetractionSettings]),
      filter_forLoop_none 0 MAX_EXTRUDERS _ Call.isSetRetractionSettings
        (fun i => by simp [switchExtruderCodeCall, Call.isSetRetractionSettings])]
    simp [flavorCall, retractionSettingsCall, Call.isSetRetractionSettings]
  · exact ⟨_, rfl⟩

/-! ### Evaluations of the double precision code -/

namespace ieee

open Double GCodePathConfig

/-- C3, counterexample: in double precision, after `setLineWidth(400)`,
`setLayerHeight(200)`, `setFilamentDiameter(2850)` and `setFlow(100)`,
`getExtrusionPerMM(true)` returns `0x1.47ae147ae147cp-4`, which is neither the number 0.08
nor the double nearest to it (`0x1.47ae147ae147bp-4`, the value of the literal `0.08`); it
is the same after `setSpeed(60)`. -/
theorem C3_counterexample :
    (getExtrusionPerMM true config400).1 = finite false 5764607523034236 (-56)
    ∧ ofLiteral 8 100 = finite false 5764607523034235 (-56)
    ∧ (getExtrusionPerMM true config400).1 ≠ ofLiteral 8 100
    ∧ toRat (getExtrusionPerMM true config400).1 ≠ some (8 / 100)
    ∧ (getExtrusionPerMM true (setSpeed (ofInt 60) config400)).1
        = finite false 5764607523034236 (-56) := by
  have h1 : (getExtrusionPerMM true config400).1 = finite false 5764607523034236 (-56) := by
    decide!
  have h2 : ofLiteral 8 100 = finite false 5764607523034235 (-56) := by decide!
  refine ⟨h1, h2, ?_, ?_, ?_⟩
  · rw [h1, h2]
    decide
  · rw [h1]
    have h56 : Int.toNat 56 = 56 := rfl
    simp only [toRat, signed]
    norm_num [h56]
  · decide!

/-- C6, counterexample: in double precision, with speed `s = 10.6` and `m = 10.6` (so
`s = m`), `l = 7` and `L = 9`, one call of `smoothSpeed(m, l, L)` leaves the speed
`0x1.5333333333334p+3` and a second call leaves `0x1.5333333333335p+3`: two calls do not
leave the same speed as one. -/
theorem C6_counterexample :
    (setSpeed (ofLiteral 106 10) (ctor 0 (ofInt 0) 0)).speed
        = finite false 5967269506265907 (-49)
    ∧ (smoothSpeed (ofLiteral 106 10) 7 (ofInt 9)
        (setSpeed (ofLiteral 106 10) (ctor 0 (ofInt 0) 0))).speed
        = finite false 5967269506265908 (-49)
    ∧ (smoothSpeed (ofLiteral 106 10) 7 (ofInt 9)
        (smoothSpeed (ofLiteral 106 10) 7 (ofInt 9)
          (setSpeed (ofLiteral 106 10) (ctor 0 (ofInt 0) 0)))).speed
        = finite false 5967269506265909 (-49)
    ∧ (smoothSpeed (ofLiteral 106 10) 7 (ofInt 9)
        (smoothSpeed (ofLiteral 106 10) 7 (ofInt 9)
          (setSpeed (ofLiteral 106 10) (ctor 0 (ofInt 0) 0)))).speed
        ≠ (smoothSpeed (ofLiteral 106 10) 7 (ofInt 9)
            (setSpeed (ofLiteral 106 10) (ctor 0 (ofInt 0) 0))).speed := by
  refine ⟨?_, ?_, ?_, ?_⟩ <;> decide!

end ieee

end cura
